import Mathlib

/-!
Verification of the AirIQ air-quality monitor (AirIQ.py, AirIQ_demo.py,
ultra_simple_web_dashboard.py) against its natural-language specification.

Byte buffers are modelled as `List ℕ` whose members are below 256; Python
integers become `ℕ`/`ℤ` and floats become `ℚ` (the repository's arithmetic is
read exactly as written, over exact rationals); fallible reads return
`Option`; dictionaries become association lists looked up by key.
-/

namespace AirIQ

/-- Result of `PMS5003Sensor.read` on a successful frame parse. -/
structure PMSReading where
  pm1_0 : ℕ
  pm2_5 : ℕ
  pm10 : ℕ
deriving DecidableEq

/-- Frame decode of `PMS5003Sensor.read` (AirIQ.py lines 94-112): a 32-byte
response whose first two bytes are 0x42 0x4D yields the three particulate
fields, each assembled as `(data[hi] << 8) | data[lo]`; anything else yields
`none`. -/
def pms5003_read (data : List ℕ) : Option PMSReading :=
  if data.length = 32 ∧ data.getD 0 0 = 0x42 ∧ data.getD 1 0 = 0x4d then
    some { pm1_0 := data.getD 10 0 <<< 8 ||| data.getD 11 0
           pm2_5 := data.getD 12 0 <<< 8 ||| data.getD 13 0
           pm10 := data.getD 14 0 <<< 8 ||| data.getD 15 0 }
  else
    none

/-- Result of `MHZ19Sensor.read` on a successful frame parse. -/
structure MHZReading where
  co2 : ℕ
  temperature : ℤ
deriving DecidableEq

/-- Frame decode of `MHZ19Sensor.read` (AirIQ.py lines 138-154): a 9-byte
response whose first two bytes are 0xFF 0x86 yields
`co2 = (response[2] << 8) | response[3]` and
`temperature = response[4] - 40`; anything else yields `none`. -/
def mhz19_read (response : List ℕ) : Option MHZReading :=
  if response.length = 9 ∧ response.getD 0 0 = 0xff ∧ response.getD 1 0 = 0x86 then
    some { co2 := response.getD 2 0 <<< 8 ||| response.getD 3 0
           temperature := (response.getD 4 0 : ℤ) - 40 }
  else
    none

end AirIQ

/-- A byte list's entry read with `getD` stays below 256 when the index is in
range. -/
lemma getD_lt_256 {l : List ℕ} (h : ∀ b ∈ l, b < 256) {i : ℕ}
    (hi : i < l.length) : l.getD i 0 < 256 := by
  rw [List.getD_eq_getElem l 0 hi]
  exact h _ (List.getElem_mem hi)

/-- `(hi << 8) | lo` is the big-endian assembly `256 * hi + lo` once the low
byte fits in 8 bits. -/
lemma shiftLeft_or_eq_mul_add (x y : ℕ) (hy : y < 256) :
    x <<< 8 ||| y = 256 * x + y := by
  have h := Nat.mul_add_lt_is_or (i := 8) (b := y) (by simpa using hy) x
  rw [Nat.shiftLeft_eq, Nat.mul_comm]
  simpa using h.symm

/-- C1: a 32-byte PMS5003 buffer with magic 0x42 0x4D decodes to big-endian
16-bit fields at offsets 10-11, 12-13, 14-15; a 9-byte MH-Z19 buffer with
magic 0xFF 0x86 decodes to the big-endian CO2 at offsets 2-3 and byte 4 minus
40 as temperature; any buffer of wrong length or wrong magic decodes to
`none`. -/
theorem C1_fixed_frame_decoders :
    (∀ data : List ℕ, (∀ b ∈ data, b < 256) →
      ((data.length = 32 ∧ data.getD 0 0 = 0x42 ∧ data.getD 1 0 = 0x4d) →
        AirIQ.pms5003_read data =
          some ⟨256 * data.getD 10 0 + data.getD 11 0,
                256 * data.getD 12 0 + data.getD 13 0,
                256 * data.getD 14 0 + data.getD 15 0⟩) ∧
      (¬(data.length = 32 ∧ data.getD 0 0 = 0x42 ∧ data.getD 1 0 = 0x4d) →
        AirIQ.pms5003_read data = none)) ∧
    (∀ response : List ℕ, (∀ b ∈ response, b < 256) →
      ((response.length = 9 ∧ response.getD 0 0 = 0xff ∧
          response.getD 1 0 = 0x86) →
        AirIQ.mhz19_read response =
          some ⟨256 * response.getD 2 0 + response.getD 3 0,
                (response.getD 4 0 : ℤ) - 40⟩) ∧
      (¬(response.length = 9 ∧ response.getD 0 0 = 0xff ∧
          response.getD 1 0 = 0x86) →
        AirIQ.mhz19_read response = none)) := by
  constructor
  · intro data hb
    constructor
    · intro hok
      have hlen : data.length = 32 := hok.1
      have h11 := getD_lt_256 hb (i := 11) (by omega)
      have h13 := getD_lt_256 hb (i := 13) (by omega)
      have h15 := getD_lt_256 hb (i := 15) (by omega)
      rw [AirIQ.pms5003_read, if_pos hok,
        shiftLeft_or_eq_mul_add _ _ h11, shiftLeft_or_eq_mul_add _ _ h13,
        shiftLeft_or_eq_mul_add _ _ h15]
    · intro hbad
      rw [AirIQ.pms5003_read, if_neg hbad]
  · intro response hb
    constructor
    · intro hok
      have hlen : response.length = 9 := hok.1
      have h3 := getD_lt_256 hb (i := 3) (by omega)
      rw [AirIQ.mhz19_read, if_pos hok, shiftLeft_or_eq_mul_add _ _ h3]
    · intro hbad
      rw [AirIQ.mhz19_read, if_neg hbad]

/-- A valid 32-byte PMS5003 frame carrying pm1_0 = 5, pm2_5 = 12, pm10 = 20. -/
def pmsTestFrame : List ℕ :=
  [0x42, 0x4d, 0, 0, 0, 0, 0, 0, 0, 0, 0, 5, 0, 12, 0, 20,
   0, 0, 0, 0, 0, 0, 0, 0, 0, 0, 0, 0, 0, 0, 0, 0]

/-- A valid 9-byte MH-Z19 frame carrying co2 = 500 and raw temperature 60. -/
def mhzTestFrame : List ℕ := [0xff, 0x86, 1, 244, 60, 0, 0, 0, 0]

/-- Witness for C1: both decoders evaluated on concrete valid frames. -/
theorem C1_fixed_frame_decoders_witness :
    AirIQ.pms5003_read pmsTestFrame = some ⟨5, 12, 20⟩ ∧
    AirIQ.mhz19_read mhzTestFrame = some ⟨500, 20⟩ := by
  constructor
  · have h := (C1_fixed_frame_decoders.1 pmsTestFrame (by decide)).1 (by decide)
    rw [h]; decide
  · have h := (C1_fixed_frame_decoders.2 mhzTestFrame (by decide)).1 (by decide)
    rw [h]; decide

/-- The AQI triple returned by both AQI calculators: index, category, display
color token. -/
structure AQIResult where
  aqi : ℤ
  category : String
  color : String
deriving DecidableEq

/-- Python's `int()` applied to an exact rational: truncation toward zero. -/
def pytrunc (q : ℚ) : ℤ := if q < 0 then -(-q).floor else q.floor

/-- Evaluation rule for `pytrunc` on a non-negative rational sitting in a
known unit interval. -/
lemma pytrunc_eq_of_nonneg {q : ℚ} {n : ℤ} (h0 : 0 ≤ q) (hl : (n : ℚ) ≤ q)
    (hu : q < n + 1) : pytrunc q = n := by
  rw [pytrunc, if_neg (not_lt.2 h0)]
  exact Int.floor_eq_iff.2 ⟨hl, hu⟩

namespace Demo

/-- `AirQualityMonitorDemo.calculate_aqi` (AirIQ_demo.py lines 102-129): the
six-band EPA-style piecewise-linear AQI, truncated to an integer by `int()`.
This variant has no guard for a missing or zero input. -/
def calculate_aqi (pm2_5_value : ℚ) : AQIResult :=
  if pm2_5_value ≤ 12 then
    { aqi := pytrunc (pm2_5_value * 50 / 12), category := "Good", color := "🟢" }
  else if pm2_5_value ≤ 35.4 then
    { aqi := pytrunc (50 + (pm2_5_value - 12) * 50 / 23.4),
      category := "Moderate", color := "🟡" }
  else if pm2_5_value ≤ 55.4 then
    { aqi := pytrunc (100 + (pm2_5_value - 35.4) * 50 / 20),
      category := "Unhealthy for Sensitive", color := "🟠" }
  else if pm2_5_value ≤ 150.4 then
    { aqi := pytrunc (150 + (pm2_5_value - 55.4) * 50 / 95),
      category := "Unhealthy", color := "🔴" }
  else if pm2_5_value ≤ 250.4 then
    { aqi := pytrunc (200 + (pm2_5_value - 150.4) * 100 / 100),
      category := "Very Unhealthy", color := "🟣" }
  else
    { aqi := pytrunc (300 + (pm2_5_value - 250.4) * 100 / 99.6),
      category := "Hazardous", color := "🟤" }

end Demo

namespace Dashboard

/-- `UltraSimpleWebDashboard.get_air_quality_index`
(ultra_simple_web_dashboard.py lines 110-126): same six bands as the demo
calculator, but a `None` or zero input short-circuits to the "Unknown"
category. -/
def get_air_quality_index : Option ℚ → AQIResult
  | none => { aqi := 0, category := "Unknown", color := "#gray" }
  | some v =>
    if v = 0 then { aqi := 0, category := "Unknown", color := "#gray" }
    else if v ≤ 12 then
      { aqi := pytrunc (v * 50 / 12), category := "Good", color := "#00e400" }
    else if v ≤ 35.4 then
      { aqi := pytrunc (50 + (v - 12) * 50 / 23.4),
        category := "Moderate", color := "#ffff00" }
    else if v ≤ 55.4 then
      { aqi := pytrunc (100 + (v - 35.4) * 50 / 20),
        category := "Unhealthy for Sensitive", color := "#ff7e00" }
    else if v ≤ 150.4 then
      { aqi := pytrunc (150 + (v - 55.4) * 50 / 95),
        category := "Unhealthy", color := "#ff0000" }
    else if v ≤ 250.4 then
      { aqi := pytrunc (200 + (v - 150.4) * 100 / 100),
        category := "Very Unhealthy", color := "#8f3f97" }
    else
      { aqi := pytrunc (300 + (v - 250.4) * 100 / 99.6),
        category := "Hazardous", color := "#7e0023" }

end Dashboard

/-- The interpolation formula of AQI band `n` (0-indexed), as published in the
spec: `low_index + (value - low_break) * (high_index - low_index) /
(high_break - low_break)`, truncated to an integer. -/
def aqiBandFormula : ℕ → ℚ → ℤ
  | 0, v => pytrunc (v * 50 / 12)
  | 1, v => pytrunc (50 + (v - 12) * 50 / 23.4)
  | 2, v => pytrunc (100 + (v - 35.4) * 50 / 20)
  | 3, v => pytrunc (150 + (v - 55.4) * 50 / 95)
  | 4, v => pytrunc (200 + (v - 150.4) * 100 / 100)
  | _, v => pytrunc (300 + (v - 250.4) * 100 / 99.6)

/-- For a nonzero input, the dashboard classifier and the demo classifier
agree on the index and the category (they differ only in the color token). -/
lemma dashboard_aqi_eq_demo (v : ℚ) (hv : ¬ v = 0) :
    (Dashboard.get_air_quality_index (some v)).aqi = (Demo.calculate_aqi v).aqi ∧
    (Dashboard.get_air_quality_index (some v)).category =
      (Demo.calculate_aqi v).category := by
  simp only [Dashboard.get_air_quality_index, Demo.calculate_aqi, if_neg hv]
  split_ifs <;> simp

/-- C3: both AQI classifiers are continuous at the five interior band
boundaries 12, 35.4, 55.4, 150.4 and 250.4 - the index each classifier
computes at the upper bound of band n (bands are closed above, so the
classifier uses band n's formula there) equals band n+1's interpolation
formula evaluated at the same value. -/
theorem C3_aqi_boundary_continuity :
    ((Demo.calculate_aqi 12).aqi = aqiBandFormula 1 12 ∧
     (Demo.calculate_aqi 35.4).aqi = aqiBandFormula 2 35.4 ∧
     (Demo.calculate_aqi 55.4).aqi = aqiBandFormula 3 55.4 ∧
     (Demo.calculate_aqi 150.4).aqi = aqiBandFormula 4 150.4 ∧
     (Demo.calculate_aqi 250.4).aqi = aqiBandFormula 5 250.4) ∧
    ((Dashboard.get_air_quality_index (some 12)).aqi = aqiBandFormula 1 12 ∧
     (Dashboard.get_air_quality_index (some 35.4)).aqi = aqiBandFormula 2 35.4 ∧
     (Dashboard.get_air_quality_index (some 55.4)).aqi = aqiBandFormula 3 55.4 ∧
     (Dashboard.get_air_quality_index (some 150.4)).aqi =
       aqiBandFormula 4 150.4 ∧
     (Dashboard.get_air_quality_index (some 250.4)).aqi =
       aqiBandFormula 5 250.4) := by
  have d1 : (Demo.calculate_aqi 12).aqi = 50 := by
    simp only [Demo.calculate_aqi]
    rw [if_pos (by norm_num)]
    exact pytrunc_eq_of_nonneg (by norm_num) (by norm_num) (by norm_num)
  have d2 : (Demo.calculate_aqi 35.4).aqi = 100 := by
    simp only [Demo.calculate_aqi]
    rw [if_neg (by norm_num), if_pos (by norm_num)]
    exact pytrunc_eq_of_nonneg (by norm_num) (by norm_num) (by norm_num)
  have d3 : (Demo.calculate_aqi 55.4).aqi = 150 := by
    simp only [Demo.calculate_aqi]
    rw [if_neg (by norm_num), if_neg (by norm_num), if_pos (by norm_num)]
    exact pytrunc_eq_of_nonneg (by norm_num) (by norm_num) (by norm_num)
  have d4 : (Demo.calculate_aqi 150.4).aqi = 200 := by
    simp only [Demo.calculate_aqi]
    rw [if_neg (by norm_num), if_neg (by norm_num), if_neg (by norm_num),
      if_pos (by norm_num)]
    exact pytrunc_eq_of_nonneg (by norm_num) (by norm_num) (by norm_num)
  have d5 : (Demo.calculate_aqi 250.4).aqi = 300 := by
    simp only [Demo.calculate_aqi]
    rw [if_neg (by norm_num), if_neg (by norm_num), if_neg (by norm_num),
      if_neg (by norm_num), if_pos (by norm_num)]
    exact pytrunc_eq_of_nonneg (by norm_num) (by norm_num) (by norm_num)
  have f1 : aqiBandFormula 1 12 = 50 := by
    show pytrunc (50 + ((12 : ℚ) - 12) * 50 / 23.4) = 50
    exact pytrunc_eq_of_nonneg (by norm_num) (by norm_num) (by norm_num)
  have f2 : aqiBandFormula 2 35.4 = 100 := by
    show pytrunc (100 + ((35.4 : ℚ) - 35.4) * 50 / 20) = 100
    exact pytrunc_eq_of_nonneg (by norm_num) (by norm_num) (by norm_num)
  have f3 : aqiBandFormula 3 55.4 = 150 := by
    show pytrunc (150 + ((55.4 : ℚ) - 55.4) * 50 / 95) = 150
    exact pytrunc_eq_of_nonneg (by norm_num) (by norm_num) (by norm_num)
  have f4 : aqiBandFormula 4 150.4 = 200 := by
    show pytrunc (200 + ((150.4 : ℚ) - 150.4) * 100 / 100) = 200
    exact pytrunc_eq_of_nonneg (by norm_num) (by norm_num) (by norm_num)
  have f5 : aqiBandFormula 5 250.4 = 300 := by
    show pytrunc (300 + ((250.4 : ℚ) - 250.4) * 100 / 99.6) = 300
    exact pytrunc_eq_of_nonneg (by norm_num) (by norm_num) (by norm_num)
  refine ⟨⟨?_, ?_, ?_, ?_, ?_⟩, ?_, ?_, ?_, ?_, ?_⟩
  · rw [d1, f1]
  · rw [d2, f2]
  · rw [d3, f3]
  · rw [d4, f4]
  · rw [d5, f5]
  · rw [(dashboard_aqi_eq_demo 12 (by norm_num)).1, d1, f1]
  · rw [(dashboard_aqi_eq_demo 35.4 (by norm_num)).1, d2, f2]
  · rw [(dashboard_aqi_eq_demo 55.4 (by norm_num)).1, d3, f3]
  · rw [(dashboard_aqi_eq_demo 150.4 (by norm_num)).1, d4, f4]
  · rw [(dashboard_aqi_eq_demo 250.4 (by norm_num)).1, d5, f5]

/-- C5 counterexample: the demo AQI classifier (one of the two cited
implementations) applied to the input 0 yields the category "Good", not
"Unknown" - it has no guard for a zero input. -/
theorem C5_counterexample :
    (Demo.calculate_aqi 0).category = "Good" ∧ "Good" ≠ "Unknown" := by
  constructor
  · simp only [Demo.calculate_aqi]
    rw [if_pos (by norm_num)]
  · decide

/-- C5 amended: the dashboard AQI classifier applied to `None` and to 0 yields
the category "Unknown", and applied to 200 yields "Very Unhealthy" (index
249); the demo classifier also yields "Very Unhealthy" at 200, but lacks the
`None`/zero guard. -/
theorem C5_aqi_special_values :
    Dashboard.get_air_quality_index none = ⟨0, "Unknown", "#gray"⟩ ∧
    Dashboard.get_air_quality_index (some 0) = ⟨0, "Unknown", "#gray"⟩ ∧
    (Dashboard.get_air_quality_index (some 200)).category = "Very Unhealthy" ∧
    (Dashboard.get_air_quality_index (some 200)).aqi = 249 ∧
    (Demo.calculate_aqi 200).category = "Very Unhealthy" := by
  have hd : (Demo.calculate_aqi 200).category = "Very Unhealthy" := by
    simp only [Demo.calculate_aqi]
    rw [if_neg (by norm_num), if_neg (by norm_num), if_neg (by norm_num),
      if_neg (by norm_num), if_pos (by norm_num)]
  have ha : (Demo.calculate_aqi 200).aqi = 249 := by
    simp only [Demo.calculate_aqi]
    rw [if_neg (by norm_num), if_neg (by norm_num), if_neg (by norm_num),
      if_neg (by norm_num), if_pos (by norm_num)]
    exact pytrunc_eq_of_nonneg (by norm_num) (by norm_num) (by norm_num)
  refine ⟨rfl, ?_, ?_, ?_, hd⟩
  · simp [Dashboard.get_air_quality_index]
  · rw [(dashboard_aqi_eq_demo 200 (by norm_num)).2, hd]
  · rw [(dashboard_aqi_eq_demo 200 (by norm_num)).1, ha]

namespace AirIQ

/-- The alert threshold configuration (`config['alerts']`), loaded from
`config.json` with defaults 35 / 1000 / 100. -/
structure Thresholds where
  pm2_5_threshold : ℚ
  co2_threshold : ℚ
  ozone_threshold : ℚ
deriving DecidableEq

/-- One alert emitted by `check_alerts`; the constructors stand for the three
formatted strings `"HIGH PM2.5: {v} ..."`, `"HIGH CO2: {v} ppm"` and
`"HIGH OZONE: {v} ppb"`, each carrying the offending value. -/
inductive Alert where
  | highPM25 (v : ℚ)
  | highCO2 (v : ℚ)
  | highOzone (v : ℚ)
deriving DecidableEq

/-- Python truthiness of `data.get(key)` for a numeric field: `None` and a
zero value are falsy, every other number is truthy. -/
def pyTruthy : Option ℚ → Bool
  | none => false
  | some q => decide (q ≠ 0)

/-- `AirQualityMonitor.check_alerts` (AirIQ.py lines 419-443): each of the
three monitored fields is guarded by `if value and value > threshold`, and
the breaches are appended in the fixed order PM2.5, CO2, ozone. -/
def check_alerts (data : List (String × ℚ)) (th : Thresholds) : List Alert :=
  let pm2_5 := data.lookup "pms5003_pm2_5"
  let a1 : List Alert :=
    if pyTruthy pm2_5 ∧ pm2_5.getD 0 > th.pm2_5_threshold then
      [Alert.highPM25 (pm2_5.getD 0)]
    else []
  let co2 := data.lookup "mhz19_co2"
  let a2 : List Alert :=
    if pyTruthy co2 ∧ co2.getD 0 > th.co2_threshold then
      [Alert.highCO2 (co2.getD 0)]
    else []
  let ozone := data.lookup "mq131_ozone"
  let a3 : List Alert :=
    if pyTruthy ozone ∧ ozone.getD 0 > th.ozone_threshold then
      [Alert.highOzone (ozone.getD 0)]
    else []
  a1 ++ a2 ++ a3

/-- The Alert Evaluator as the amended claim words it: for each monitored
field in the fixed order particulate, CO2, ozone, a present *nonzero* value
strictly greater than its configured threshold emits exactly one alert;
an absent or zero value emits none. -/
def evaluate_amended (data : List (String × ℚ)) (th : Thresholds) : List Alert :=
  (match data.lookup "pms5003_pm2_5" with
   | some v => if v ≠ 0 ∧ th.pm2_5_threshold < v then [Alert.highPM25 v] else []
   | none => []) ++
  (match data.lookup "mhz19_co2" with
   | some v => if v ≠ 0 ∧ th.co2_threshold < v then [Alert.highCO2 v] else []
   | none => []) ++
  (match data.lookup "mq131_ozone" with
   | some v => if v ≠ 0 ∧ th.ozone_threshold < v then [Alert.highOzone v] else []
   | none => [])

/-- One guarded append of `check_alerts` agrees with the corresponding
match of `evaluate_amended`. -/
lemma alert_item_eq (v : Option ℚ) (t : ℚ) (mk : ℚ → Alert) :
    (if pyTruthy v ∧ v.getD 0 > t then [mk (v.getD 0)] else []) =
    (match v with
     | some w => if w ≠ 0 ∧ t < w then [mk w] else []
     | none => []) := by
  cases v with
  | none => simp [pyTruthy]
  | some w => simp [pyTruthy, gt_iff_lt]

end AirIQ

namespace Demo

/-- The fixed demo alert configuration (AirIQ_demo.py lines 69-76). -/
def alerts_config : AirIQ.Thresholds := ⟨35, 1000, 100⟩

/-- One demo cycle's record: `read_all_sensors` of the demo always fills in
every one of the seven sensor keys. -/
structure DemoData where
  pm2_5 : ℚ
  pm10 : ℚ
  co2 : ℚ
  tvoc : ℚ
  ozone : ℚ
  temperature : ℚ
  humidity : ℚ

/-- `AirQualityMonitorDemo.check_alerts` (AirIQ_demo.py lines 131-147):
compares `data['pm2_5']`, `data['co2']`, `data['ozone']` directly with
`>` against the fixed configuration - no truthiness guard. -/
def check_alerts (data : DemoData) : List AirIQ.Alert :=
  (if data.pm2_5 > alerts_config.pm2_5_threshold then
    [AirIQ.Alert.highPM25 data.pm2_5] else []) ++
  (if data.co2 > alerts_config.co2_threshold then
    [AirIQ.Alert.highCO2 data.co2] else []) ++
  (if data.ozone > alerts_config.ozone_threshold then
    [AirIQ.Alert.highOzone data.ozone] else [])

end Demo

/-- C2 counterexample: the record `{pms5003_pm2_5: 0}` (a present monitored
value) with configured threshold `pm2_5_threshold = -1` is a breach under
strict greater-than (`-1 < 0`), yet `check_alerts` emits no alert, because
Python's `if pm2_5 and ...` treats the value 0 as falsy. -/
theorem C2_counterexample :
    ([(("pms5003_pm2_5" : String), (0 : ℚ))].lookup "pms5003_pm2_5" = some 0) ∧
    ((-1 : ℚ) < 0) ∧
    AirIQ.check_alerts [("pms5003_pm2_5", 0)]
      ⟨-1, 1000, 100⟩ = [] := by
  refine ⟨rfl, by norm_num, ?_⟩
  simp [AirIQ.check_alerts, AirIQ.pyTruthy, List.lookup]

/-- C2 amended: alert evaluation compares each present *nonzero* monitored
value against its configured threshold with strict greater-than, emitting
exactly one alert per such breach in the fixed order particulate, CO2,
ozone (a present zero value is treated like an absent one); with thresholds
35/1000/100 and record {pm2_5: 40, co2: 500, ozone: 50} exactly one alert is
returned and it references PM2.5. -/
theorem C2_alert_evaluation :
    (∀ (data : List (String × ℚ)) (th : AirIQ.Thresholds),
      AirIQ.check_alerts data th = AirIQ.evaluate_amended data th) ∧
    AirIQ.check_alerts
      [("pms5003_pm2_5", 40), ("mhz19_co2", 500), ("mq131_ozone", 50)]
      ⟨35, 1000, 100⟩ = [AirIQ.Alert.highPM25 40] := by
  constructor
  · intro data th
    rw [AirIQ.check_alerts, AirIQ.evaluate_amended]
    rw [AirIQ.alert_item_eq, AirIQ.alert_item_eq, AirIQ.alert_item_eq]
  · simp [AirIQ.check_alerts, AirIQ.pyTruthy, List.lookup]
    norm_num

/-- C6: an aggregated record missing a sensor's field never yields an alert
referencing that sensor - the evaluator is a total function (it cannot
raise), and an absent value never triggers any alert. -/
theorem C6_absent_never_alerts :
    ∀ (data : List (String × ℚ)) (th : AirIQ.Thresholds),
      (data.lookup "pms5003_pm2_5" = none →
        ∀ v, AirIQ.Alert.highPM25 v ∉ AirIQ.check_alerts data th) ∧
      (data.lookup "mhz19_co2" = none →
        ∀ v, AirIQ.Alert.highCO2 v ∉ AirIQ.check_alerts data th) ∧
      (data.lookup "mq131_ozone" = none →
        ∀ v, AirIQ.Alert.highOzone v ∉ AirIQ.check_alerts data th) := by
  intro data th
  refine ⟨?_, ?_, ?_⟩ <;> intro h v <;>
    simp only [AirIQ.check_alerts, h] <;>
    split_ifs <;> simp_all [AirIQ.pyTruthy]

/-- Witness for C6: the empty record with default thresholds emits no PM2.5
alert. -/
theorem C6_absent_never_alerts_witness :
    AirIQ.Alert.highPM25 3 ∉ AirIQ.check_alerts [] ⟨35, 1000, 100⟩ :=
  (C6_absent_never_alerts [] ⟨35, 1000, 100⟩).1 rfl 3

/-- C10: a monitored field present with value exactly 0 never produces an
alert for that field, whatever the configured threshold (even a negative
one): the main monitor's `if value and value > threshold` treats 0 as falsy,
and the demo monitor's fixed thresholds 35/1000/100 are all positive. -/
theorem C10_zero_value_never_alerts :
    (∀ (data : List (String × ℚ)) (th : AirIQ.Thresholds),
      (data.lookup "pms5003_pm2_5" = some 0 →
        ∀ v, AirIQ.Alert.highPM25 v ∉ AirIQ.check_alerts data th) ∧
      (data.lookup "mhz19_co2" = some 0 →
        ∀ v, AirIQ.Alert.highCO2 v ∉ AirIQ.check_alerts data th) ∧
      (data.lookup "mq131_ozone" = some 0 →
        ∀ v, AirIQ.Alert.highOzone v ∉ AirIQ.check_alerts data th)) ∧
    (∀ d : Demo.DemoData,
      (d.pm2_5 = 0 → ∀ v, AirIQ.Alert.highPM25 v ∉ Demo.check_alerts d) ∧
      (d.co2 = 0 → ∀ v, AirIQ.Alert.highCO2 v ∉ Demo.check_alerts d) ∧
      (d.ozone = 0 → ∀ v, AirIQ.Alert.highOzone v ∉ Demo.check_alerts d)) := by
  constructor
  · intro data th
    refine ⟨?_, ?_, ?_⟩ <;> intro h v <;>
      simp only [AirIQ.check_alerts, h] <;>
      split_ifs <;> simp_all [AirIQ.pyTruthy]
  · intro d
    refine ⟨?_, ?_, ?_⟩ <;> intro h v <;>
      simp only [Demo.check_alerts, Demo.alerts_config, h] <;>
      split_ifs <;> first
        | (exfalso; linarith)
        | simp_all

/-- Witness for C10: a record whose PM2.5 value is exactly 0 produces no
PM2.5 alert even under all-negative thresholds. -/
theorem C10_zero_value_never_alerts_witness :
    AirIQ.Alert.highPM25 3 ∉
      AirIQ.check_alerts [("pms5003_pm2_5", 0)] ⟨-5, -5, -5⟩ :=
  (C10_zero_value_never_alerts.1 [("pms5003_pm2_5", 0)] ⟨-5, -5, -5⟩).1 rfl 3

namespace AirIQ

/-- The outcome of one sensor's `read()` in a cycle: a successful reading (a
mapping from field name to numeric value), an absent reading (`None`), or a
raised exception caught by the aggregator's `try`. -/
inductive ReadResult where
  | ok (fields : List (String × ℚ))
  | absent
  | error

/-- One cycle's aggregated record: the `timestamp` value plus the flattened
`"<sensor>_<field>"` fields. -/
structure AggRecord where
  timestamp : String
  fields : List (String × ℚ)
deriving DecidableEq

/-- The fields one registry entry contributes to the aggregated record: on a
successful reading, every field whose name does not start with `unit`, keyed
`"<sensor>_<field>"`; on `None` or an exception, nothing (the loop logs and
continues). -/
def sensor_contrib : String × ReadResult → List (String × ℚ)
  | (name, .ok fs) =>
      (fs.filter (fun kv => !(kv.1.startsWith "unit"))).map
        (fun kv => (name ++ "_" ++ kv.1, kv.2))
  | (_, .absent) => []
  | (_, .error) => []

/-- `AirQualityMonitor.read_all_sensors` (AirIQ.py lines 376-393): start from
`{'timestamp': ...}` and fold every sensor's contribution in registry
order. -/
def read_all_sensors (ts : String) (sensors : List (String × ReadResult)) :
    AggRecord :=
  ⟨ts, sensors.flatMap sensor_contrib⟩

end AirIQ

/-- C7: aggregation is total (it cannot raise); the record carries the cycle
timestamp; a sensor whose read raises or returns `None` contributes nothing
and leaves every other sensor's fields untouched; and a successful sensor
contributes exactly its returned fields keyed `"<sensor>_<field>"`, with
every `unit`-prefixed pseudo-field omitted. -/
theorem C7_aggregation :
    (∀ (ts : String) (sensors : List (String × AirIQ.ReadResult)),
      (AirIQ.read_all_sensors ts sensors).timestamp = ts) ∧
    (∀ (ts n : String) (res : AirIQ.ReadResult)
        (pre post : List (String × AirIQ.ReadResult)),
      (res = AirIQ.ReadResult.absent ∨ res = AirIQ.ReadResult.error) →
      AirIQ.read_all_sensors ts (pre ++ (n, res) :: post) =
        AirIQ.read_all_sensors ts (pre ++ post)) ∧
    (∀ (ts n : String) (fs : List (String × ℚ))
        (rest : List (String × AirIQ.ReadResult)),
      (AirIQ.read_all_sensors ts ((n, AirIQ.ReadResult.ok fs) :: rest)).fields =
        (fs.filter (fun kv => !(kv.1.startsWith "unit"))).map
          (fun kv => (n ++ "_" ++ kv.1, kv.2)) ++
        (AirIQ.read_all_sensors ts rest).fields) := by
  refine ⟨fun ts sensors => rfl, ?_, ?_⟩
  · intro ts n res pre post hres
    rcases hres with h | h <;> subst h <;>
      simp [AirIQ.read_all_sensors, AirIQ.sensor_contrib]
  · intro ts n fs rest
    simp [AirIQ.read_all_sensors, AirIQ.sensor_contrib]

/-- Witness for C7: a registry with one healthy sensor and one erroring
sensor aggregates the same record as the registry without the erroring
sensor. -/
theorem C7_aggregation_witness :
    AirIQ.read_all_sensors "t"
      [("pms5003", AirIQ.ReadResult.ok [("pm2_5", 7)]),
       ("mhz19", AirIQ.ReadResult.error)] =
    AirIQ.read_all_sensors "t" [("pms5003", AirIQ.ReadResult.ok [("pm2_5", 7)])] :=
  C7_aggregation.2.1 "t" "mhz19" AirIQ.ReadResult.error
    [("pms5003", AirIQ.ReadResult.ok [("pm2_5", 7)])] [] (Or.inr rfl)

namespace AirIQ

/-- The fixed CSV header row written by `_init_csv_file` (AirIQ.py lines
370-371). -/
def headers : List String :=
  ["timestamp", "pm1_0", "pm2_5", "pm10", "co2", "eco2",
   "tvoc", "ozone", "temperature", "humidity"]

/-- `AirQualityMonitor._init_csv_file` (lines 367-374): if the data file does
not exist, create it with the header row; otherwise leave it unchanged. The
file is modelled as its list of rows, `none` standing for a non-existent
file. -/
def init_csv_file : Option (List (List String)) → List (List String)
  | none => [headers]
  | some f => f

/-- The nine sensor-field keys `log_data` reads with `data.get(key, '')`,
in the fixed column order of `headers` (lines 404-413). -/
def sensor_log_keys : List String :=
  ["pms5003_pm1_0", "pms5003_pm2_5", "pms5003_pm10", "mhz19_co2",
   "sgp30_eco2", "sgp30_tvoc", "mq131_ozone", "dht22_temperature",
   "dht22_humidity"]

/-- One CSV cell: `data.get(key, '')` then stringified by `csv.writer` - a
present value's text, or the empty cell when the key is missing. -/
def cell (data : AggRecord) (k : String) : String :=
  match data.fields.lookup k with
  | some q => toString q
  | none => ""

/-- The row `log_data` appends for one record: the timestamp cell followed by
the nine sensor cells in fixed order. -/
def log_row (data : AggRecord) : List String :=
  data.timestamp :: sensor_log_keys.map (cell data)

/-- `AirQualityMonitor.log_data` (lines 395-417): when logging is enabled,
append exactly one row to the file. -/
def log_data (enabled : Bool) (file : List (List String)) (data : AggRecord) :
    List (List String) :=
  if enabled then file ++ [log_row data] else file

end AirIQ

/-- Folding `log_data` over a batch of records appends their rows in order. -/
lemma foldl_log_data (init : List (List String)) (rs : List AirIQ.AggRecord) :
    rs.foldl (AirIQ.log_data true) init = init ++ rs.map AirIQ.log_row := by
  induction rs generalizing init with
  | nil => simp
  | cons r rs ih => simp [AirIQ.log_data, ih]

/-- C4: initializing a non-existent log writes exactly the one header row,
and N appends then give a file of exactly N+1 lines - the header followed by
one row per record in order - where every data row has the same column count
as the header and every field missing from a record serializes as the empty
cell (never a textual null or a zero). -/
theorem C4_csv_log_shape :
    ∀ rs : List AirIQ.AggRecord,
      AirIQ.init_csv_file none = [AirIQ.headers] ∧
      rs.foldl (AirIQ.log_data true) (AirIQ.init_csv_file none) =
        AirIQ.headers :: rs.map AirIQ.log_row ∧
      (rs.foldl (AirIQ.log_data true) (AirIQ.init_csv_file none)).length =
        rs.length + 1 ∧
      (∀ r : AirIQ.AggRecord, (AirIQ.log_row r).length = AirIQ.headers.length) ∧
      (∀ (r : AirIQ.AggRecord) (k : String),
        r.fields.lookup k = none → AirIQ.cell r k = "") := by
  intro rs
  refine ⟨rfl, ?_, ?_, ?_, ?_⟩
  · rw [foldl_log_data]
    rfl
  · rw [foldl_log_data]
    simp [AirIQ.init_csv_file]
  · intro r
    simp [AirIQ.log_row, AirIQ.sensor_log_keys, AirIQ.headers]
  · intro r k h
    simp [AirIQ.cell, h]

/-- Witness for C4: one record carrying only a CO2 value gives a two-line
file, and its missing PM2.5 field serializes as the empty cell. -/
theorem C4_csv_log_shape_witness :
    (([(⟨"2024-01-01T00:00:00", [("mhz19_co2", 500)]⟩ : AirIQ.AggRecord)].foldl
        (AirIQ.log_data true) (AirIQ.init_csv_file none)).length = 1 + 1) ∧
    AirIQ.cell ⟨"2024-01-01T00:00:00", [("mhz19_co2", 500)]⟩
      "pms5003_pm2_5" = "" :=
  ⟨(C4_csv_log_shape [⟨"2024-01-01T00:00:00", [("mhz19_co2", 500)]⟩]).2.2.1,
   (C4_csv_log_shape []).2.2.2.2
     ⟨"2024-01-01T00:00:00", [("mhz19_co2", 500)]⟩ "pms5003_pm2_5" rfl⟩

namespace AirIQ

/-- `MQ131Sensor._read_adc` (AirIQ.py lines 211-218): the 10-bit MCP3008
result `((adc[1] & 3) << 8) + adc[2]`. -/
def mq131_read_adc (adc1 adc2 : ℕ) : ℕ := (adc1 &&& 3) <<< 8 + adc2

/-- The voltage computed by `MQ131Sensor.read` (line 227):
`adc_value * 3.3 / 1024.0`. -/
def mq131_voltage (adc_value : ℕ) : ℚ := (adc_value : ℚ) * 3.3 / 1024

/-- Python's `round(x, 2)` over exact rationals (ties here round half away
from the floor; no claim depends on tie behaviour). -/
def pyround2 (q : ℚ) : ℚ := (round (q * 100) : ℚ) / 100

/-- The ozone concentration `MQ131Sensor.read` returns (lines 226-235):
`(voltage - 0.4) * 1000 / 2.0`, clamped below at 0 by `max(0, ...)`, then
rounded to two decimals. -/
def mq131_read_ozone (adc_value : ℕ) : ℚ :=
  pyround2 (max 0 ((mq131_voltage adc_value - 0.4) * 1000 / 2))

end AirIQ

/-- C8: the 10-bit ADC extraction always lands in 0..1023, and for every
sample in that range the returned ozone concentration is non-negative, and
exactly zero whenever the computed voltage is at most the 0.4 V offset. -/
theorem C8_ozone_clamped :
    (∀ adc1 adc2 : ℕ, adc2 < 256 → AirIQ.mq131_read_adc adc1 adc2 ≤ 1023) ∧
    (∀ a : ℕ, a ≤ 1023 →
      0 ≤ AirIQ.mq131_read_ozone a ∧
      (AirIQ.mq131_voltage a ≤ 0.4 → AirIQ.mq131_read_ozone a = 0)) := by
  constructor
  · intro adc1 adc2 h2
    have h1 : adc1 &&& 3 ≤ 3 := Nat.and_le_right
    have hs : (adc1 &&& 3) <<< 8 = (adc1 &&& 3) * 256 := by
      rw [Nat.shiftLeft_eq]
    rw [AirIQ.mq131_read_adc, hs]
    omega
  · intro a _
    constructor
    · rw [AirIQ.mq131_read_ozone, AirIQ.pyround2]
      have h0 : (0 : ℚ) ≤ max 0 ((AirIQ.mq131_voltage a - 0.4) * 1000 / 2) :=
        le_max_left _ _
      have hr : (0 : ℤ) ≤ round ((max 0 ((AirIQ.mq131_voltage a - 0.4) * 1000 / 2)) * 100) := by
        rw [round_eq]
        refine Int.le_floor.2 ?_
        push_cast
        nlinarith
      positivity
    · intro hv
      have hx : (AirIQ.mq131_voltage a - 0.4) * 1000 / 2 ≤ 0 := by
        have : AirIQ.mq131_voltage a - 0.4 ≤ 0 := by linarith
        linarith
      rw [AirIQ.mq131_read_ozone, max_eq_left hx, AirIQ.pyround2]
      simp

/-- Witness for C8: the extreme response bytes stay in range, and the sample
100 (voltage about 0.32 V, below the offset) reads as exactly zero ozone. -/
theorem C8_ozone_clamped_witness :
    AirIQ.mq131_read_adc 255 255 ≤ 1023 ∧ AirIQ.mq131_read_ozone 100 = 0 :=
  ⟨C8_ozone_clamped.1 255 255 (by norm_num),
   (C8_ozone_clamped.2 100 (by norm_num)).2 (by
     rw [AirIQ.mq131_voltage]
     norm_num)⟩

namespace Dashboard

/-- One charting data point built by `get_recent_data`: the raw timestamp
string plus each non-timestamp column parsed as a float (an unparsable cell
becomes 0). -/
structure DataPoint where
  timestamp : String
  values : List (String × ℚ)
deriving DecidableEq

/-- The data point built for one qualifying row
(ultra_simple_web_dashboard.py lines 93-99): `row[0]` as the timestamp and,
for each header column past the timestamp, `float(row[i])` with 0 on parse
failure. The external `float()` parser is the argument `pfloat`. -/
def data_point (pfloat : String → Option ℚ) (header row : List String) :
    DataPoint :=
  ⟨row.headD "",
   ((header.drop 1).zip (row.drop 1)).map (fun cv => (cv.1, (pfloat cv.2).getD 0))⟩

/-- The rows of `get_recent_data`'s loop that reach `recent_data.append`
(lines 84-102), in file order: a row qualifies when it has at least as many
columns as the header, its first cell parses as a timestamp (the external
`datetime.fromisoformat` is the argument `tparse`; a failure is swallowed by
`except: continue`), and that timestamp is at least the cutoff. -/
def recent_qualified (tparse : String → Option ℤ) (pfloat : String → Option ℚ)
    (cutoff : ℤ) (header : List String) (rows : List (List String)) :
    List DataPoint :=
  rows.filterMap (fun row =>
    if header.length ≤ row.length then
      (tparse (row.headD "")).bind (fun t =>
        if cutoff ≤ t then some (data_point pfloat header row) else none)
    else none)

/-- `UltraSimpleWebDashboard.get_recent_data` (lines 68-108): collect the
qualifying rows for the cutoff `now - hours` (times in seconds, so the
lookback is `hours * 3600`), then return `recent_data[-50:]`. -/
def get_recent_data (tparse : String → Option ℤ) (pfloat : String → Option ℚ)
    (now hours : ℤ) (header : List String) (rows : List (List String)) :
    List DataPoint :=
  let recent_data := recent_qualified tparse pfloat (now - hours * 3600) header rows
  recent_data.drop (recent_data.length - 50)

end Dashboard

/-- C9: the recent-data query returns only rows whose timestamp parses and
lies within the lookback window, as a suffix of the qualifying rows in file
order, never more than 50 of them; and when more than 50 rows qualify it
returns exactly the 50 last in the file. -/
theorem C9_recent_data_query :
    ∀ (tparse : String → Option ℤ) (pfloat : String → Option ℚ)
      (now hours : ℤ) (header : List String) (rows : List (List String)),
      (∀ p ∈ Dashboard.get_recent_data tparse pfloat now hours header rows,
        ∃ t, tparse p.timestamp = some t ∧ now - hours * 3600 ≤ t) ∧
      (Dashboard.get_recent_data tparse pfloat now hours header rows).length ≤ 50 ∧
      (Dashboard.get_recent_data tparse pfloat now hours header rows <:+
        Dashboard.recent_qualified tparse pfloat (now - hours * 3600) header rows) ∧
      (50 < (Dashboard.recent_qualified tparse pfloat (now - hours * 3600)
          header rows).length →
        (Dashboard.get_recent_data tparse pfloat now hours header rows).length
          = 50) := by
  intro tparse pfloat now hours header rows
  refine ⟨?_, ?_, ?_, ?_⟩
  · intro p hp
    simp only [Dashboard.get_recent_data] at hp
    have hp' := List.mem_of_mem_drop hp
    rw [Dashboard.recent_qualified] at hp'
    obtain ⟨row, _, hf⟩ := List.mem_filterMap.1 hp'
    by_cases hl : header.length ≤ row.length
    · rw [if_pos hl] at hf
      cases ht : tparse (row.headD "") with
      | none => rw [ht] at hf; cases hf
      | some t =>
        rw [ht, Option.some_bind] at hf
        by_cases hc : now - hours * 3600 ≤ t
        · rw [if_pos hc] at hf
          have hps : Dashboard.data_point pfloat header row = p :=
            Option.some.inj hf
          refine ⟨t, ?_, hc⟩
          rw [← hps]
          exact ht
        · rw [if_neg hc] at hf; cases hf
    · rw [if_neg hl] at hf; cases hf
  · simp only [Dashboard.get_recent_data, List.length_drop]
    omega
  · exact List.drop_suffix _ _
  · intro h50
    simp only [Dashboard.get_recent_data, List.length_drop]
    omega

/-- Witness for C9: the query on a concrete two-row log returns at most 50
points and is a suffix of the qualifying rows. -/
theorem C9_recent_data_query_witness :
    (Dashboard.get_recent_data (fun s => s.toInt?) (fun _ => none) 7200 1
      ["timestamp", "pm2_5"] [["100", "3"], ["7200", "9"]]).length ≤ 50 ∧
    (Dashboard.get_recent_data (fun s => s.toInt?) (fun _ => none) 7200 1
      ["timestamp", "pm2_5"] [["100", "3"], ["7200", "9"]] <:+
      Dashboard.recent_qualified (fun s => s.toInt?) (fun _ => none)
        (7200 - 1 * 3600) ["timestamp", "pm2_5"]
        [["100", "3"], ["7200", "9"]]) :=
  ⟨(C9_recent_data_query (fun s => s.toInt?) (fun _ => none) 7200 1
      ["timestamp", "pm2_5"] [["100", "3"], ["7200", "9"]]).2.1,
   (C9_recent_data_query (fun s => s.toInt?) (fun _ => none) 7200 1
      ["timestamp", "pm2_5"] [["100", "3"], ["7200", "9"]]).2.2.1⟩

/-- Witness for C2's amended general part: a record whose CO2 value breaches
the default threshold evaluates identically under the source evaluator and
the amended specification. -/
theorem C2_alert_evaluation_witness :
    AirIQ.check_alerts [("mhz19_co2", 1500)] ⟨35, 1000, 100⟩ =
      AirIQ.evaluate_amended [("mhz19_co2", 1500)] ⟨35, 1000, 100⟩ :=
  C2_alert_evaluation.1 [("mhz19_co2", 1500)] ⟨35, 1000, 100⟩
